import Mathlib

/-!
# Verification of the MT5 automated execution framework

Shallow embedding of `src/MT5_Automated_Execution_Framework.py`.

Modelling conventions:
* Finite floating-point values are embedded as exact rationals (every finite
  float is a rational); IEEE NaN is embedded as `Option.none`, and every
  comparison against NaN is `false`, as in Python/NumPy.
* The MetaTrader gateway is an external collaborator: each cycle of the main
  loop reads a snapshot of it (`Env`): connectivity, the indicator data,
  account equity, the instrument tick value, the order result, and the clock.
* Side effects of one loop iteration (orders sent, audit rows written,
  reconnect actions, sleeps) are reified as an event list (`Ev`).
-/

namespace MT5

/-! ## Configuration constants (source lines 9-18) -/

def MAGIC_NUMBER : Int := 123456

def LOOKBACK : Nat := 100

def ENTRY_Z : ℚ := 22/10

def EXIT_Z : ℚ := 2/10

def STOP_Z : ℚ := 4

def RISK_PER_TRADE : ℚ := 1/100

def MAX_TRADE_DURATION_HOURS : ℚ := 8

/-! ## Directions and events -/

/-- Position direction; the source uses the strings `"LONG"` / `"SHORT"`. -/
inductive Dir where
  | long
  | short
deriving DecidableEq, Repr

/-- The string the source uses for a direction. -/
def dirStr : Dir → String
  | .long => "LONG"
  | .short => "SHORT"

/-- Observable effects of one iteration of the main loop.
`log` mirrors a `log_trade(action, status, price, lots, pnl, reason)` call,
i.e. one appended `AuditRecord` row.  `recovery` would mark a call to
`check_existing_position`; the loop body of the source never performs one
(the function is called once, before the loop). -/
inductive Ev where
  | shutdown
  | sleepRetry
  | reinit
  | recovery
  | orderSend (dir : Dir) (lot : ℚ) (comment : String)
  | orderClose (dir : Dir) (lot : ℚ) (comment : String)
  | log (action status : String) (price lots pnl : ℚ) (reason : String)
  | sleepPoll
deriving DecidableEq, Repr

/-- `true` exactly for audit-trail rows (`log_trade` calls). -/
def isLogEv : Ev → Bool
  | .log _ _ _ _ _ _ => true
  | _ => false

/-! ## NaN-aware comparisons

A float that may be NaN is an `Option ℚ`; any ordered comparison with NaN
yields `false` in Python, which the `none` branches reproduce. -/

/-- `abs(z) > c`, false when `z` is NaN. -/
def absGT (z : Option ℚ) (c : ℚ) : Bool :=
  match z with
  | none => false
  | some v => decide (c < |v|)

/-- `abs(z) <= c`, false when `z` is NaN. -/
def absLE (z : Option ℚ) (c : ℚ) : Bool :=
  match z with
  | none => false
  | some v => decide (|v| ≤ c)

/-- `abs(z) >= c`, false when `z` is NaN. -/
def absGE (z : Option ℚ) (c : ℚ) : Bool :=
  match z with
  | none => false
  | some v => decide (c ≤ |v|)

/-- `z > 0`, false when `z` is NaN (the source's direction pick
`"SHORT" if z > 0 else "LONG"`). -/
def zPos (z : Option ℚ) : Bool :=
  match z with
  | none => false
  | some v => decide (0 < v)

/-! ## Risk sizing (source lines 40-53, `get_lot_size`) -/

/-- Python `max(a, b)`: keeps `a` unless `b` is strictly greater. -/
def pyMax (a b : ℚ) : ℚ := if a < b then b else a

/-- Python `min(a, b)`: keeps `a` unless `b` is strictly smaller. -/
def pyMin (a b : ℚ) : ℚ := if b < a then b else a

/-- Round-half-to-even on an exact rational, the rounding Python's built-in
`round` applies to the exact value of a float. -/
def roundHE (q : ℚ) : Int :=
  if q - ⌊q⌋ < 1/2 then ⌊q⌋
  else if 1/2 < q - ⌊q⌋ then ⌊q⌋ + 1
  else if ⌊q⌋ % 2 = 0 then ⌊q⌋ else ⌊q⌋ + 1

/-- Python `round(x, 2)` on the exact rational value of `x`. -/
def pyRound2 (x : ℚ) : ℚ := (roundHE (100 * x) : ℚ) / 100

/-- `get_lot_size(risk_amount, stop_pips)` of the source; the tick value the
source reads from `mt5.symbol_info(SYMBOL)` is passed explicitly. -/
def get_lot_size (risk_amount stop_pips tick_value : ℚ) : ℚ :=
  let sp := pyMax stop_pips 10
  let lot := risk_amount / (sp * tick_value * 100)
  if lot < 1/100 then 0
  else pyRound2 (pyMin lot 10)

/-! ## State recovery (source lines 26-37, `check_existing_position`) -/

/-- One open position as reported by `mt5.positions_get`:
`magic`, `type` (`0` is `POSITION_TYPE_BUY`), `price_open`, `time`
(epoch seconds), `volume`. -/
structure GwPos where
  magic : Int
  ptype : Nat
  price_open : ℚ
  time : ℚ
  volume : ℚ
deriving DecidableEq, Repr

/-- Direction decoded from the position type, as in the source:
`"LONG" if pos.type == mt5.POSITION_TYPE_BUY else "SHORT"`. -/
def posDir (p : GwPos) : Dir :=
  if p.ptype = 0 then .long else .short

/-- The in-memory state of the loop: the module-level variables
`active_position`, `entry_price`, `trade_entry_time`, `trade_lots`.
`active = none` is Flat; times are epoch seconds (UTC). -/
structure St where
  active : Option Dir
  entryPrice : Option ℚ
  entryTime : Option ℚ
  lots : ℚ
deriving DecidableEq, Repr

/-- The Flat tuple `(None, None, None, 0.0)` the source returns when nothing
is recovered. -/
def flatSt : St := ⟨none, none, none, 0⟩

/-- `check_existing_position()` over a snapshot of the gateway's reported
open positions (the source crashes never: an empty query simply recovers
Flat).  Filters to this bot's magic number and adopts `bot_positions[0]`,
the first match in the gateway's reported order. -/
def check_existing_position (positions : List GwPos) : St :=
  if positions.isEmpty then flatSt
  else
    match (positions.filter fun p => p.magic = MAGIC_NUMBER).head? with
    | some pos => ⟨some (posDir pos), some pos.price_open, some pos.time, pos.volume⟩
    | none => flatSt

/-! ## One iteration of the main loop (source lines 131-190) -/

/-- The signal tuple `z, price, atr, is_trending` the loop destructures from
`get_indicators()`.  `z` is `Option` because a zero-variance or too-short
window makes the float z-score NaN; `atr` is modelled as a plain rational
(it is NaN only when fewer than 15 bars were returned, a situation no claim
touches and in which the source enters no trade). -/
structure SigQ where
  z : Option ℚ
  price : ℚ
  atr : ℚ
  isTrending : Bool
deriving DecidableEq, Repr

/-- Snapshot of the environment one loop iteration reads: connectivity,
the indicator data (`none` when `get_indicators()` returned `None`),
account equity, tick value, whether the (at most one) order sent this cycle
came back `TRADE_RETCODE_DONE`, and the clock (`now` in epoch seconds plus
the weekday/hour fields of the same instant). -/
structure Env where
  connected : Bool
  data : Option SigQ
  equity : ℚ
  tickValue : ℚ
  orderDone : Bool
  now : ℚ
  weekday : Nat
  hour : Nat
deriving DecidableEq, Repr

/-- The exit-reason selection of the source:
`"Target" if hit_target else ("Z-Stop" if hit_stop else ("Time" if time_exit
else "Weekend"))`. -/
def exitReason (hit_target hit_stop time_exit : Bool) (_is_weekend_close : Bool) : String :=
  if hit_target then "Target"
  else if hit_stop then "Z-Stop"
  else if time_exit then "Time"
  else "Weekend"

/-- Entry audit reason; the source formats `f"Z:{z:.2f}"`.  We keep the exact
rational (no claim inspects the digits); NaN would print as `"Z:nan"` but is
unreachable behind the entry guard. -/
def zReason (z : Option ℚ) : String :=
  match z with
  | none => "Z:nan"
  | some v => "Z:" ++ toString v

/-- One iteration of the `while True:` loop, returning the new state and the
events of the iteration.  Mirrors the source line by line:
* disconnected: shutdown, sleep, re-init, `continue` (no recovery call);
* `get_indicators()` returned `None`: `continue`;
* Flat: the entry branch (note `trade_lots` is assigned the sizer's result
  before the `>= 0.01` check, so it is updated even when no order is sent);
* held: the exit branch;
* every non-`continue` path ends in `time.sleep(60)`. -/
def cycle (env : Env) (st : St) : St × List Ev :=
  if !env.connected then
    (st, [.shutdown, .sleepRetry, .reinit])
  else
    match env.data with
    | none => (st, [])
    | some sig =>
      match st.active with
      | none =>
        if absGT sig.z ENTRY_Z && !sig.isTrending then
          let risk_cash := env.equity * RISK_PER_TRADE
          let stop_pips := sig.atr * 200
          let lots := get_lot_size risk_cash stop_pips env.tickValue
          if 1/100 ≤ lots then
            let direction := if zPos sig.z then Dir.short else Dir.long
            if env.orderDone then
              (⟨some direction, some sig.price, some env.now, lots⟩,
               [.orderSend direction lots "Z-Entry",
                .log "ENTRY" (dirStr direction) sig.price lots 0 (zReason sig.z),
                .sleepPoll])
            else
              ({ st with lots := lots },
               [.orderSend direction lots "Z-Entry", .sleepPoll])
          else
            ({ st with lots := lots }, [.sleepPoll])
        else
          (st, [.sleepPoll])
      | some d =>
        let duration := (env.now - st.entryTime.getD 0) / 3600
        let hit_target := absLE sig.z EXIT_Z
        let hit_stop := absGE sig.z STOP_Z
        let time_exit := decide (MAX_TRADE_DURATION_HOURS < duration)
        let is_weekend_close := decide (env.weekday = 4) && decide (20 ≤ env.hour)
        if hit_target || hit_stop || time_exit || is_weekend_close then
          let reason := exitReason hit_target hit_stop time_exit is_weekend_close
          if env.orderDone then
            let pnl := (if d = Dir.short then st.entryPrice.getD 0 - sig.price
                        else sig.price - st.entryPrice.getD 0) * st.lots * 100000
            ({ st with active := none },
             [.orderClose d st.lots reason,
              .log "EXIT" (dirStr d) sig.price st.lots pnl reason,
              .sleepPoll])
          else
            (st, [.orderClose d st.lots reason, .sleepPoll])
        else
          (st, [.sleepPoll])

/-! ## Helper lemmas on the Python builtins -/

theorem pyMax_eq_max (a b : ℚ) : pyMax a b = max a b := by
  unfold pyMax
  rcases lt_trichotomy a b with h | h | h
  · rw [if_pos h, max_eq_right h.le]
  · subst h; simp
  · rw [if_neg (not_lt.mpr h.le), max_eq_left h.le]

theorem pyMin_eq_min (a b : ℚ) : pyMin a b = min a b := by
  unfold pyMin
  rcases lt_trichotomy a b with h | h | h
  · rw [if_neg (not_lt.mpr h.le), min_eq_left h.le]
  · subst h; simp
  · rw [if_pos h, min_eq_right h.le]

theorem roundHE_ge_floor (q : ℚ) : ⌊q⌋ ≤ roundHE q := by
  unfold roundHE
  split_ifs <;> omega

theorem roundHE_le_floor_add_one (q : ℚ) : roundHE q ≤ ⌊q⌋ + 1 := by
  unfold roundHE
  split_ifs <;> omega

theorem roundHE_mono {p q : ℚ} (h : p ≤ q) : roundHE p ≤ roundHE q := by
  rcases lt_or_eq_of_le (Int.floor_le_floor h) with hf | hf
  · calc roundHE p ≤ ⌊p⌋ + 1 := roundHE_le_floor_add_one p
      _ ≤ ⌊q⌋ := by omega
      _ ≤ roundHE q := roundHE_ge_floor q
  · unfold roundHE
    rw [← hf]
    have h1 : (⌊p⌋ : ℚ) ≤ p := Int.floor_le p
    split_ifs <;> first | omega | linarith

theorem roundHE_intCast (n : Int) : roundHE (n : ℚ) = n := by
  unfold roundHE
  rw [Int.floor_intCast]
  norm_num

theorem pyRound2_mono {x y : ℚ} (h : x ≤ y) : pyRound2 x ≤ pyRound2 y := by
  unfold pyRound2
  have : roundHE (100 * x) ≤ roundHE (100 * y) :=
    roundHE_mono (by linarith)
  have hc : ((roundHE (100 * x) : ℚ)) ≤ (roundHE (100 * y) : ℚ) := by
    exact_mod_cast this
  linarith

theorem pyRound2_nonneg {x : ℚ} (h : 0 ≤ x) : 0 ≤ pyRound2 x := by
  unfold pyRound2
  have h1 : (0 : Int) ≤ ⌊(100 : ℚ) * x⌋ := Int.floor_nonneg.mpr (by linarith)
  have h2 : (0 : Int) ≤ roundHE (100 * x) := le_trans h1 (roundHE_ge_floor _)
  have : (0 : ℚ) ≤ (roundHE (100 * x) : ℚ) := by exact_mod_cast h2
  linarith

theorem pyRound2_ten : pyRound2 10 = 10 := by
  unfold pyRound2
  have : (100 : ℚ) * 10 = ((1000 : Int) : ℚ) := by norm_num
  rw [this, roundHE_intCast]
  norm_num

/-! ## Claim-side risk sizers

`get_lot_size_claim` follows claim C6's words: size rounded *down* to the
nearest lot step (0.01), clamped to `[0, maxLot]`, returning 0 exactly when
the rounded size is below the minimum tradable unit.
`get_lot_size_amended` follows the amended wording: the raw size is tested
against the minimum lot first, and the rounding is to the *nearest* step,
ties to even, then the clamp. -/

def get_lot_size_claim (risk_amount stop_pips tick_value : ℚ) : ℚ :=
  let sp := max stop_pips 10
  let size := risk_amount / (sp * tick_value * 100)
  let stepped := (⌊size * 100⌋ : ℚ) / 100
  let clamped := max 0 (min stepped 10)
  if clamped < 1/100 then 0 else clamped

def get_lot_size_amended (risk_amount stop_pips tick_value : ℚ) : ℚ :=
  let sp := max stop_pips 10
  let size := risk_amount / (sp * tick_value * 100)
  if size < 1/100 then 0
  else max 0 (min (pyRound2 size) 10)

end MT5

namespace MT5

/-- **C6, counterexample.**  At `risk_amount = 19`, `stop_pips = 10`,
`tick_value = 1`, the raw size is `0.019`; the source rounds to the nearest
lot step and returns `0.02`, while the claim's round-down rule yields
`0.01`, so the claim as stated is false at this input. -/
theorem C6_counterexample :
    get_lot_size 19 10 1 = 2/100 ∧ get_lot_size_claim 19 10 1 = 1/100 ∧
      (2/100 : ℚ) ≠ 1/100 := by
  refine ⟨?_, ?_, by norm_num⟩
  · norm_num [get_lot_size, pyMax, pyMin, pyRound2, roundHE]
  · norm_num [get_lot_size_claim]

/-- **C6, amended.**  For all inputs, the Risk Sizer floors `stopDistance`
at the configured minimum (10), computes
`size = riskAmount / (stopDistance × tickValue × 100)`, and returns 0
exactly when this raw size is below the minimum tradable unit (0.01);
otherwise it returns the size clamped to `[0, maxLot = 10]` and rounded to
the *nearest* lot step of 0.01 (ties to even), not rounded down. -/
theorem C6_sizer_refines_amended (risk_amount stop_pips tick_value : ℚ) :
    get_lot_size risk_amount stop_pips tick_value
      = get_lot_size_amended risk_amount stop_pips tick_value := by
  simp only [get_lot_size, get_lot_size_amended, pyMax_eq_max, pyMin_eq_min]
  set size := risk_amount / (max stop_pips 10 * tick_value * 100) with hsize
  by_cases hlt : size < 1/100
  · rw [if_pos hlt, if_pos hlt]
  · rw [if_neg hlt, if_neg hlt]
    push_neg at hlt
    have h100 : pyRound2 (1/100) = 1/100 := by
      norm_num [pyRound2, roundHE]
    rcases le_or_lt size 10 with hs | hs
    · rw [min_eq_left hs]
      have hub : pyRound2 size ≤ 10 := by
        calc pyRound2 size ≤ pyRound2 10 := pyRound2_mono hs
          _ = 10 := pyRound2_ten
      have hlb : (0 : ℚ) ≤ pyRound2 size := pyRound2_nonneg (by linarith)
      rw [min_eq_left hub, max_eq_right hlb]
    · rw [min_eq_right hs.le]
      have hge : (10 : ℚ) ≤ pyRound2 size := by
        calc (10 : ℚ) = pyRound2 10 := pyRound2_ten.symm
          _ ≤ pyRound2 size := pyRound2_mono hs.le
      rw [min_eq_right hge, max_eq_right (by norm_num), pyRound2_ten]

/-- **C9.**  For a fixed stop distance and a positive tick value, the risk
sizer's output is monotonically non-decreasing in the risk amount. -/
theorem C9_sizer_monotone_in_risk (r₁ r₂ stop_pips tick_value : ℚ)
    (htv : 0 < tick_value) (hr : r₁ ≤ r₂) :
    get_lot_size r₁ stop_pips tick_value ≤ get_lot_size r₂ stop_pips tick_value := by
  simp only [get_lot_size, pyMax_eq_max, pyMin_eq_min]
  have hden : (0 : ℚ) < max stop_pips 10 * tick_value * 100 := by
    have h10 : (0 : ℚ) < max stop_pips 10 := lt_of_lt_of_le (by norm_num) (le_max_right _ _)
    positivity
  set d := max stop_pips 10 * tick_value * 100 with hd
  have hlot : r₁ / d ≤ r₂ / d := div_le_div_of_nonneg_right hr hden.le
  by_cases h1 : r₁ / d < 1/100
  · rw [if_pos h1]
    by_cases h2 : r₂ / d < 1/100
    · rw [if_pos h2]
    · rw [if_neg h2]
      push_neg at h2
      exact pyRound2_nonneg (le_min (by linarith) (by norm_num))
  · rw [if_neg h1]
    push_neg at h1
    have h2 : ¬ r₂ / d < 1/100 := not_lt.mpr (le_trans h1 hlot)
    rw [if_neg h2]
    exact pyRound2_mono (min_le_min_right 10 hlot)

/-- **C9, witness.**  A concrete instance of the monotonicity theorem. -/
theorem C9_sizer_monotone_in_risk_witness :
    (0 : ℚ) < 1 ∧ (10 : ℚ) ≤ 20 ∧ get_lot_size 10 10 1 ≤ get_lot_size 20 10 1 :=
  ⟨by norm_num, by norm_num, C9_sizer_monotone_in_risk 10 20 10 1 (by norm_num) (by norm_num)⟩

end MT5

namespace MT5

/-! ## Main-loop claims -/

/-- **C1, counterexample.**  A disconnected cycle reconnects (shutdown,
retry sleep, re-init) and the very next cycle evaluates entry and submits
an order, with no Recovery (`check_existing_position`) call anywhere in
between: the loop never invokes Recovery after a reconnect. -/
theorem C1_counterexample :
    cycle ⟨false, none, 0, 0, false, 0, 0, 0⟩ flatSt
        = (flatSt, [.shutdown, .sleepRetry, .reinit]) ∧
      cycle ⟨true, some ⟨some 3, 150, 1/100, false⟩, 10000, 1, true, 0, 0, 0⟩ flatSt
        = (⟨some .short, some 150, some 0, 1/10⟩,
           [.orderSend .short (1/10) "Z-Entry",
            .log "ENTRY" "SHORT" 150 (1/10) 0 (zReason (some 3)), .sleepPoll]) ∧
      Ev.recovery ∉ (cycle ⟨false, none, 0, 0, false, 0, 0, 0⟩ flatSt).2 ++
        (cycle ⟨true, some ⟨some 3, 150, 1/100, false⟩, 10000, 1, true, 0, 0, 0⟩ flatSt).2 := by
  have h1 : cycle ⟨false, none, 0, 0, false, 0, 0, 0⟩ flatSt
      = (flatSt, [.shutdown, .sleepRetry, .reinit]) := by norm_num [cycle]
  have h2 : cycle ⟨true, some ⟨some 3, 150, 1/100, false⟩, 10000, 1, true, 0, 0, 0⟩ flatSt
      = (⟨some .short, some 150, some 0, 1/10⟩,
         [.orderSend .short (1/10) "Z-Entry",
          .log "ENTRY" "SHORT" 150 (1/10) 0 (zReason (some 3)), .sleepPoll]) := by
    norm_num [cycle, absGT, zPos, ENTRY_Z, RISK_PER_TRADE, get_lot_size, pyMax, pyMin,
      pyRound2, roundHE, flatSt, dirStr]
  refine ⟨h1, h2, ?_⟩
  rw [h1, h2]
  intro hmem
  simp only [List.cons_append, List.nil_append, List.mem_cons, List.not_mem_nil] at hmem
  rcases hmem with h | h | h | h | h | h | h <;> first | exact h | exact Ev.noConfusion h

/-- **C1, amended.**  After a successful reconnect the engine resumes
cycles directly with its previous in-memory state, never invoking Recovery
(`check_existing_position` is called once, at startup, only); during an
outage cycle no order is submitted, no audit row is written and the state
is untouched — the cycle performs exactly shutdown, retry sleep, re-init. -/
theorem C1_no_recovery_after_reconnect (env : Env) (st : St) :
    Ev.recovery ∉ (cycle env st).2 ∧
      (env.connected = false →
        cycle env st = (st, [.shutdown, .sleepRetry, .reinit])) := by
  obtain ⟨conn, data, eqy, tv, od, now, wd, hr⟩ := env
  obtain ⟨act, ep, et, lots⟩ := st
  constructor
  · cases conn <;> cases data <;> cases act <;>
      simp only [cycle] <;> split_ifs <;> simp_all
  · intro h
    simp only at h
    subst h
    simp [cycle]

/-- **C1, witness.** -/
theorem C1_no_recovery_after_reconnect_witness :
    Ev.recovery ∉ (cycle ⟨false, none, 0, 0, false, 0, 0, 0⟩ flatSt).2 ∧
      cycle ⟨false, none, 0, 0, false, 0, 0, 0⟩ flatSt
        = (flatSt, [.shutdown, .sleepRetry, .reinit]) :=
  ⟨(C1_no_recovery_after_reconnect ⟨false, none, 0, 0, false, 0, 0, 0⟩ flatSt).1,
   (C1_no_recovery_after_reconnect ⟨false, none, 0, 0, false, 0, 0, 0⟩ flatSt).2 rfl⟩

/-- **C2, counterexample.**  An entry order whose result is not
`TRADE_RETCODE_DONE`: the engine stays Flat (only the module variable
`trade_lots` is overwritten) but writes *no* Failure AuditRecord at all —
the cycle's events are the order submission and the poll sleep, with no
`log_trade` call, refuting "exactly one Failure AuditRecord is written". -/
theorem C2_counterexample :
    cycle ⟨true, some ⟨some 3, 150, 1/100, false⟩, 10000, 1, false, 0, 0, 0⟩ flatSt
        = (⟨none, none, none, 1/10⟩, [.orderSend .short (1/10) "Z-Entry", .sleepPoll]) ∧
      (cycle ⟨true, some ⟨some 3, 150, 1/100, false⟩, 10000, 1, false, 0, 0, 0⟩
          flatSt).2.filter isLogEv = [] := by
  constructor
  · norm_num [cycle, absGT, zPos, ENTRY_Z, RISK_PER_TRADE, get_lot_size, pyMax, pyMin,
      pyRound2, roundHE, flatSt]
  · norm_num [cycle, absGT, zPos, ENTRY_Z, RISK_PER_TRADE, get_lot_size, pyMax, pyMin,
      pyRound2, roundHE, flatSt, isLogEv]

/-- **C2, amended.**  For every order submission (entry from Flat, or
closing order from Long/Short) whose result is not a confirmed fill, the
position state is unchanged — Flat stays Flat (though `trade_lots` is
overwritten with the freshly computed size), a held position stays fully
unchanged, to be re-evaluated next cycle — and *no* audit record of any
kind is written (the source has no Failure logging). -/
theorem C2_rejected_order_state_unchanged_no_audit (env : Env) (st : St)
    (h : env.orderDone = false) :
    (cycle env st).1.active = st.active ∧
      (st.active ≠ none → (cycle env st).1 = st) ∧
      (cycle env st).2.filter isLogEv = [] := by
  obtain ⟨conn, data, eqy, tv, od, now, wd, hr⟩ := env
  obtain ⟨act, ep, et, lots⟩ := st
  simp only at h
  subst h
  cases conn <;> cases data <;> cases act <;>
    simp only [cycle] <;> split_ifs <;> simp_all [isLogEv]

/-- **C2, witness.** -/
theorem C2_rejected_order_state_unchanged_no_audit_witness :
    (cycle ⟨true, some ⟨some 3, 150, 1/100, false⟩, 10000, 1, false, 0, 0, 0⟩
        flatSt).1.active = flatSt.active ∧
      (flatSt.active ≠ none →
        (cycle ⟨true, some ⟨some 3, 150, 1/100, false⟩, 10000, 1, false, 0, 0, 0⟩
          flatSt).1 = flatSt) ∧
      (cycle ⟨true, some ⟨some 3, 150, 1/100, false⟩, 10000, 1, false, 0, 0, 0⟩
        flatSt).2.filter isLogEv = [] :=
  C2_rejected_order_state_unchanged_no_audit
    ⟨true, some ⟨some 3, 150, 1/100, false⟩, 10000, 1, false, 0, 0, 0⟩ flatSt rfl

/-- **C3, counterexample.**  Entry condition holds in Flat but the sizer
returns 0 (equity 10, atr 1 gives raw size 0.0000005): the engine submits
no order and remains Flat, but writes *no* Skip AuditRecord — the cycle's
only event is the poll sleep, refuting the claimed
"risk-too-small" Skip record. -/
theorem C3_counterexample :
    cycle ⟨true, some ⟨some 3, 150, 1, false⟩, 10, 1, false, 0, 0, 0⟩ flatSt
        = (⟨none, none, none, 0⟩, [.sleepPoll]) ∧
      (cycle ⟨true, some ⟨some 3, 150, 1, false⟩, 10, 1, false, 0, 0, 0⟩
          flatSt).2.filter isLogEv = [] := by
  constructor
  · norm_num [cycle, absGT, zPos, ENTRY_Z, RISK_PER_TRADE, get_lot_size, pyMax, pyMin,
      pyRound2, roundHE, flatSt]
  · norm_num [cycle, absGT, zPos, ENTRY_Z, RISK_PER_TRADE, get_lot_size, pyMax, pyMin,
      pyRound2, roundHE, flatSt, isLogEv]

/-- **C3, amended.**  Whenever the entry condition holds in the Flat state
but the Risk Sizer returns size 0, the engine submits no order and remains
Flat (with `trade_lots` set to 0), and writes *no* audit record: the
"risk too low" message goes to the console only, never to the audit log. -/
theorem C3_zero_size_skips_silently (env : Env) (st : St) (sig : SigQ)
    (hc : env.connected = true) (hd : env.data = some sig)
    (hst : st.active = none)
    (hz : absGT sig.z ENTRY_Z = true) (htr : sig.isTrending = false)
    (h0 : get_lot_size (env.equity * RISK_PER_TRADE) (sig.atr * 200) env.tickValue = 0) :
    cycle env st = ({ st with lots := 0 }, [.sleepPoll]) := by
  obtain ⟨conn, data, eqy, tv, od, now, wd, hr⟩ := env
  obtain ⟨act, ep, et, lots⟩ := st
  simp only at hc hd hst h0
  subst hc hd hst
  simp [cycle, hz, htr, h0]

/-- **C3, witness.** -/
theorem C3_zero_size_skips_silently_witness :
    absGT (some 3) ENTRY_Z = true ∧ (false : Bool) = false ∧
      get_lot_size ((10 : ℚ) * RISK_PER_TRADE) ((1 : ℚ) * 200) 1 = 0 ∧
      cycle ⟨true, some ⟨some 3, 150, 1, false⟩, 10, 1, false, 0, 0, 0⟩ flatSt
        = ({ flatSt with lots := 0 }, [.sleepPoll]) :=
  ⟨by norm_num [absGT, ENTRY_Z], rfl,
   by norm_num [get_lot_size, RISK_PER_TRADE, pyMax, pyMin, pyRound2, roundHE],
   C3_zero_size_skips_silently _ flatSt ⟨some 3, 150, 1, false⟩ rfl rfl rfl
     (by norm_num [absGT, ENTRY_Z]) rfl
     (by norm_num [get_lot_size, RISK_PER_TRADE, pyMax, pyMin, pyRound2, roundHE])⟩

/-- **C4, counterexample.**  Scenario C of the spec: `zScore = 4.5` while
holding a Long position, with the time-exit and weekend conditions also
true.  The stop reason does win the priority race, but the recorded reason
string is `"Z-Stop"`, not `"Stop"` as the claim states. -/
theorem C4_counterexample :
    cycle ⟨true, some ⟨some (9/2), 151, 1, false⟩, 0, 1, true, 100000, 4, 21⟩
        ⟨some .long, some 150, some 0, 1/2⟩
      = (⟨none, some 150, some 0, 1/2⟩,
         [.orderClose .long (1/2) "Z-Stop",
          .log "EXIT" "LONG" 151 (1/2) 50000 "Z-Stop", .sleepPoll]) ∧
      "Z-Stop" ≠ "Stop" := by
  constructor
  · have habs : |(9/2 : ℚ)| = 9/2 := abs_of_pos (by norm_num)
    norm_num [cycle, absLE, absGE, EXIT_Z, STOP_Z, MAX_TRADE_DURATION_HOURS,
      exitReason, dirStr, habs]
    decide
  · decide

/-- **C4, amended.**  From Long or Short, the four exit conditions are
tested in the strict priority order Target (`|z| ≤ exitThreshold`), Stop
(`|z| ≥ stopThreshold`), Time (holding duration > maxDurationHours), then
the weekend guard; exactly one reason is recorded even when several are
simultaneously true — one closing order is sent and (on a confirmed fill)
one Exit record written, both carrying that single winning reason — but the
recorded reason strings are `"Target"`, `"Z-Stop"`, `"Time"`, `"Weekend"`:
with `zScore = 4.5` while holding Long the recorded reason is `"Z-Stop"`
(the claim's `"Stop"` is not what the source writes). -/
theorem C4_exit_priority (env : Env) (st : St) (sig : SigQ) (d : Dir)
    (hc : env.connected = true) (hd : env.data = some sig) (hst : st.active = some d)
    (hfire : (absLE sig.z EXIT_Z || absGE sig.z STOP_Z
        || decide (MAX_TRADE_DURATION_HOURS < (env.now - st.entryTime.getD 0) / 3600)
        || (decide (env.weekday = 4) && decide (20 ≤ env.hour))) = true) :
    (cycle env st).2 =
      (if env.orderDone then
        [Ev.orderClose d st.lots
          (exitReason (absLE sig.z EXIT_Z) (absGE sig.z STOP_Z)
            (decide (MAX_TRADE_DURATION_HOURS < (env.now - st.entryTime.getD 0) / 3600))
            (decide (env.weekday = 4) && decide (20 ≤ env.hour))),
         Ev.log "EXIT" (dirStr d) sig.price st.lots
          ((if d = Dir.short then st.entryPrice.getD 0 - sig.price
            else sig.price - st.entryPrice.getD 0) * st.lots * 100000)
          (exitReason (absLE sig.z EXIT_Z) (absGE sig.z STOP_Z)
            (decide (MAX_TRADE_DURATION_HOURS < (env.now - st.entryTime.getD 0) / 3600))
            (decide (env.weekday = 4) && decide (20 ≤ env.hour))),
         Ev.sleepPoll]
      else
        [Ev.orderClose d st.lots
          (exitReason (absLE sig.z EXIT_Z) (absGE sig.z STOP_Z)
            (decide (MAX_TRADE_DURATION_HOURS < (env.now - st.entryTime.getD 0) / 3600))
            (decide (env.weekday = 4) && decide (20 ≤ env.hour))),
         Ev.sleepPoll]) ∧
      (∀ b₂ b₃ b₄, exitReason true b₂ b₃ b₄ = "Target") ∧
      (∀ b₃ b₄, exitReason false true b₃ b₄ = "Z-Stop") ∧
      (∀ b₄, exitReason false false true b₄ = "Time") ∧
      (∀ b₄, exitReason false false false b₄ = "Weekend") := by
  obtain ⟨conn, data, eqy, tv, od, now, wd, hr⟩ := env
  obtain ⟨act, ep, et, lots⟩ := st
  simp only at hc hd hst hfire
  subst hc hd hst
  refine ⟨?_, by simp [exitReason], by simp [exitReason], by simp [exitReason],
    by simp [exitReason]⟩
  cases od <;> simp [cycle, hfire]

/-- **C4, witness.**  The amended theorem applied at Scenario C. -/
theorem C4_exit_priority_witness :
    (cycle ⟨true, some ⟨some (9/2), 151, 1, false⟩, 0, 1, true, 100000, 4, 21⟩
        ⟨some .long, some 150, some 0, 1/2⟩).2 =
      (if true then
        [Ev.orderClose .long (1/2)
          (exitReason (absLE (some (9/2)) EXIT_Z) (absGE (some (9/2)) STOP_Z)
            (decide (MAX_TRADE_DURATION_HOURS < ((100000 : ℚ) - (0 : ℚ)) / 3600))
            (decide ((4 : Nat) = 4) && decide ((20 : Nat) ≤ 21))),
         Ev.log "EXIT" (dirStr .long) 151 (1/2)
          ((if Dir.long = Dir.short then (150 : ℚ) - 151 else (151 : ℚ) - 150) * (1/2) * 100000)
          (exitReason (absLE (some (9/2)) EXIT_Z) (absGE (some (9/2)) STOP_Z)
            (decide (MAX_TRADE_DURATION_HOURS < ((100000 : ℚ) - (0 : ℚ)) / 3600))
            (decide ((4 : Nat) = 4) && decide ((20 : Nat) ≤ 21))),
         Ev.sleepPoll]
      else
        [Ev.orderClose .long (1/2)
          (exitReason (absLE (some (9/2)) EXIT_Z) (absGE (some (9/2)) STOP_Z)
            (decide (MAX_TRADE_DURATION_HOURS < ((100000 : ℚ) - (0 : ℚ)) / 3600))
            (decide ((4 : Nat) = 4) && decide ((20 : Nat) ≤ 21))),
         Ev.sleepPoll]) ∧
      (∀ b₂ b₃ b₄, exitReason true b₂ b₃ b₄ = "Target") ∧
      (∀ b₃ b₄, exitReason false true b₃ b₄ = "Z-Stop") ∧
      (∀ b₄, exitReason false false true b₄ = "Time") ∧
      (∀ b₄, exitReason false false false b₄ = "Weekend") :=
  C4_exit_priority ⟨true, some ⟨some (9/2), 151, 1, false⟩, 0, 1, true, 100000, 4, 21⟩
    ⟨some .long, some 150, some 0, 1/2⟩ ⟨some (9/2), 151, 1, false⟩ .long
    rfl rfl rfl (by norm_num [absGE, STOP_Z])

/-! ## Signal engine (source lines 110-126, `get_indicators`)

Pandas/NumPy float semantics are embedded as follows: a series cell that
pandas would hold as NaN (an unfilled rolling window, the shifted first
row, a 0/0 division) is `Option.none`; every other float is its exact
rational value, except the z-score, whose standard deviation is an exact
real square root. -/

/-- One OHLC price bar; only the fields `get_indicators` reads. -/
structure Bar where
  high : ℚ
  low : ℚ
  close : ℚ
deriving DecidableEq, Repr

/-- The close column `df['close']`. -/
def closesOf (bars : List Bar) : List ℚ := bars.map (·.close)

/-- pandas `Series.tail(k)`: the last `min(k, n)` entries. -/
def pdTail (k : Nat) (xs : List ℚ) : List ℚ := xs.drop (xs.length - k)

/-- pandas `Series.mean()` of a nonempty series (an empty series would be
NaN; every use below is guarded nonempty). -/
def pdMean (xs : List ℚ) : ℚ := xs.sum / xs.length

/-- The square of pandas `Series.std()` (sample variance, `ddof = 1`):
`Σ (x − mean)² / (n − 1)`.  For `n ≤ 1` pandas yields NaN; here the ℚ
convention `q / 0 = 0` makes the value `0`, and the z-score definition
treats that case as undefined explicitly. -/
def sampleVar (xs : List ℚ) : ℚ :=
  ((xs.map fun x => (x - pdMean xs)^2).sum) / ((xs.length : ℚ) - 1)

/-- pandas `Series.std()` (sample standard deviation) as an exact real. -/
noncomputable def pdStd (xs : List ℚ) : ℝ := Real.sqrt (sampleVar xs)

/-- The z-score of the source,
`(df['close'].iloc[-1] - close_series.mean()) / close_series.std()` with
`close_series = df['close'].tail(LOOKBACK)`.  The float is NaN exactly when
the window holds fewer than two closes (std is NaN) or the deviation is
zero (a 0/0: the last close lies in the window, so zero deviation forces a
zero numerator); both cases are `none`. -/
noncomputable def zScoreCode (cs : List ℚ) : Option ℝ :=
  if (pdTail LOOKBACK cs).length < 2 ∨ sampleVar (pdTail LOOKBACK cs) = 0 then none
  else some ((((cs.getLast?.getD 0 : ℚ) : ℝ) - ((pdMean (pdTail LOOKBACK cs) : ℚ) : ℝ))
      / pdStd (pdTail LOOKBACK cs))

/-- The z-score exactly as §4.1 of the spec words it:
`(lastClose − mean(closes over lookback window)) / stddev(closes over
lookback window)`, sample standard deviation, undefined (fails) if the
standard deviation is zero. -/
noncomputable def zScoreSpec (cs : List ℚ) : Option ℝ :=
  if pdStd (pdTail LOOKBACK cs) = 0 then none
  else some (((((pdTail LOOKBACK cs).getLast?.getD 0 : ℚ) : ℝ)
      - ((pdMean (pdTail LOOKBACK cs) : ℚ) : ℝ)) / pdStd (pdTail LOOKBACK cs))

/-- The true-range cells after the first row:
`max(high − low, max(|high − prevClose|, |low − prevClose|))`. -/
def trAux (prev : Bar) : List Bar → List (Option ℚ)
  | [] => []
  | b :: bs =>
      some (max (b.high - b.low) (max |b.high - prev.close| |b.low - prev.close|)) :: trAux b bs

/-- The `tr` column: the first row's shifted previous close is NaN and
`np.maximum` propagates it, so the first cell is `none`. -/
def trList : List Bar → List (Option ℚ)
  | [] => []
  | b :: bs => none :: trAux b bs

/-- pandas `Series.rolling(k).mean().iloc[-1]`: NaN (`none`) when fewer
than `k` rows exist or the window contains a NaN cell. -/
def rollingMeanLast (k : Nat) (xs : List (Option ℚ)) : Option ℚ :=
  if xs.length < k then none
  else
    let w := xs.drop (xs.length - k)
    if w.all Option.isSome then some (pdMean (w.filterMap id)) else none

/-- `is_trending = abs(close[-1] - ma200) / ma200 > 0.03`; while `ma200` is
NaN (fewer than 200 bars) every float comparison is False.  (The float edge
`ma200 == 0.0`, impossible for positive price series, would yield inf in the
source but `0` under the ℚ convention; no claim touches it.) -/
def isTrendingOf (bars : List Bar) : Bool :=
  match rollingMeanLast 200 ((closesOf bars).map some) with
  | none => false
  | some m => decide ((3 : ℚ)/100 < |((closesOf bars).getLast?.getD 0) - m| / m)

/-- The signal tuple `get_indicators` returns. -/
structure SigR where
  z : Option ℝ
  price : ℚ
  atr : Option ℚ
  isTrending : Bool

/-- `get_indicators()` over the bars the gateway returned:
`None` (no data at all) propagates as the single failure case; any actual
bar list — of whatever length — produces a signal tuple.  (The source
would raise `IndexError` on a zero-length frame, which `mt5.copy_rates_from_pos`
reports as `None` instead; theorems about non-`None` inputs assume a
nonempty list.) -/
noncomputable def get_indicators : Option (List Bar) → Option SigR
  | none => none
  | some bars =>
      some ⟨zScoreCode (closesOf bars), (closesOf bars).getLast?.getD 0,
            rollingMeanLast 14 (trList bars), isTrendingOf bars⟩

/-! ### Facts about the sample variance and window -/

theorem sampleVar_of_short (xs : List ℚ) (h : xs.length < 2) : sampleVar xs = 0 := by
  rcases xs with _ | ⟨a, _ | ⟨b, t⟩⟩
  · simp [sampleVar]
  · simp [sampleVar, pdMean]
  · simp only [List.length_cons] at h
    omega

theorem sampleVar_nonneg (xs : List ℚ) : 0 ≤ sampleVar xs := by
  rcases xs with _ | ⟨a, t⟩
  · simp [sampleVar]
  · unfold sampleVar
    apply div_nonneg
    · apply List.sum_nonneg
      intro x hx
      obtain ⟨y, _, hy⟩ := List.mem_map.mp hx
      rw [← hy]
      exact sq_nonneg _
    · simp only [List.length_cons]
      push_cast
      linarith [Nat.cast_nonneg (α := ℚ) t.length]

theorem getLast?_drop_of_lt {α : Type} (l : List α) (m : Nat) (h : m < l.length) :
    (l.drop m).getLast? = l.getLast? := by
  conv_rhs => rw [← List.take_append_drop m l]
  rw [List.getLast?_append_of_ne_nil]
  intro hnil
  have := List.length_drop m l
  rw [hnil] at this
  simp at this
  omega

/-- **C8.**  The z-score the source computes coincides, for every close
series, with the spec's formula — last close minus the mean of the lookback
window, divided by the sample standard deviation of that window — and it is
undefined (NaN) whenever that standard deviation is zero. -/
theorem C8_zscore_matches_spec (cs : List ℚ) :
    zScoreCode cs = zScoreSpec cs ∧
      (sampleVar (pdTail LOOKBACK cs) = 0 → zScoreCode cs = none) := by
  constructor
  · by_cases hv : sampleVar (pdTail LOOKBACK cs) = 0
    · have hstd : pdStd (pdTail LOOKBACK cs) = 0 := by
        unfold pdStd
        rw [hv]
        simp
      simp [zScoreCode, zScoreSpec, hv, hstd]
    · have hvpos : 0 < sampleVar (pdTail LOOKBACK cs) :=
        lt_of_le_of_ne (sampleVar_nonneg _) (Ne.symm hv)
      have hstd : pdStd (pdTail LOOKBACK cs) ≠ 0 := by
        unfold pdStd
        rw [Real.sqrt_ne_zero']
        exact_mod_cast hvpos
      have hlen : ¬ (pdTail LOOKBACK cs).length < 2 := by
        intro hshort
        exact hv (sampleVar_of_short _ hshort)
      have hlast : (pdTail LOOKBACK cs).getLast? = cs.getLast? := by
        apply getLast?_drop_of_lt
        have hw : (pdTail LOOKBACK cs).length = cs.length - (cs.length - LOOKBACK) := by
          simp [pdTail]
        omega
      rw [zScoreCode, zScoreSpec, if_neg (by tauto), if_neg hstd, hlast]
  · intro hv
    simp [zScoreCode, hv]

/-- **C8, witness.**  A constant window has zero standard deviation and the
z-score is undefined there, matching the spec formula's failure case. -/
theorem C8_zscore_matches_spec_witness :
    zScoreCode [1, 1, 1] = zScoreSpec [1, 1, 1] ∧ zScoreCode [1, 1, 1] = none :=
  ⟨(C8_zscore_matches_spec [1, 1, 1]).1,
   (C8_zscore_matches_spec [1, 1, 1]).2 (by
      norm_num [sampleVar, pdTail, pdMean, LOOKBACK])⟩

/-- **C5, counterexample.**  A bar sequence of length 5 — far below the
configured lookback (100) plus trend window (200) — is *not* rejected:
`get_indicators` still returns a signal tuple, so no `InsufficientDataError`
path exists for short sequences (only a `None` reply skips the cycle). -/
theorem C5_counterexample :
    (5 : Nat) < LOOKBACK + 200 ∧
      get_indicators (some [⟨1, 1, 1⟩, ⟨2, 1, 2⟩, ⟨3, 1, 3⟩, ⟨2, 1, 2⟩, ⟨4, 1, 4⟩]) ≠ none := by
  constructor
  · norm_num [LOOKBACK]
  · simp [get_indicators]

/-- **C5, amended.**  The signal computation fails — and the cycle is then
skipped with no side effects: no order, no state change, no audit row —
exactly when the gateway returns no data at all (`None`); a bar sequence
merely shorter than lookback + trend window is still processed, its
unfilled windows yielding NaN components. -/
theorem C5_skip_only_on_none_data (rates : Option (List Bar)) (env : Env) (st : St)
    (_hne : ∀ bars, rates = some bars → bars ≠ []) :
    (get_indicators rates = none ↔ rates = none) ∧
      (env.connected = true → env.data = none → cycle env st = (st, [])) := by
  constructor
  · cases rates with
    | none => simp [get_indicators]
    | some bars => simp [get_indicators]
  · intro hc hd
    obtain ⟨conn, data, eqy, tv, od, now, wd, hr⟩ := env
    simp only at hc hd
    subst hc hd
    simp [cycle]

/-- **C5, witness.** -/
theorem C5_skip_only_on_none_data_witness :
    (get_indicators (some [⟨1, 1, 1⟩]) = none ↔ (some [Bar.mk 1 1 1] : Option (List Bar)) = none) ∧
      cycle ⟨true, none, 0, 0, false, 0, 0, 0⟩ flatSt = (flatSt, []) := by
  have h := C5_skip_only_on_none_data (some [⟨1, 1, 1⟩]) ⟨true, none, 0, 0, false, 0, 0, 0⟩
    flatSt (by intro bars hb; injection hb with hb; rw [← hb]; simp)
  exact ⟨h.1, h.2 rfl rfl⟩

/-! ## Recovery claims -/

/-- The earliest-opened position of a list (first listed wins a tie). -/
def minTimePos : List GwPos → Option GwPos
  | [] => none
  | p :: ps =>
      match minTimePos ps with
      | none => some p
      | some q => some (if q.time < p.time then q else p)

/-- Recovery as claim C7 words it: adopt the fields of the
*earliest-opened* position among those matching the magic number. -/
def recover_claim (positions : List GwPos) : St :=
  match minTimePos (positions.filter fun p => p.magic = MAGIC_NUMBER) with
  | none => flatSt
  | some pos => ⟨some (posDir pos), some pos.price_open, some pos.time, pos.volume⟩

/-- **C7, counterexample.**  Two matching positions reported newest-first:
the source adopts `bot_positions[0]` — the *first listed* (opened at 2000)
— while the claim requires the earliest-opened one (opened at 1000), so the
claim is false on this gateway snapshot. -/
theorem C7_counterexample :
    check_existing_position [⟨123456, 0, 200, 2000, 1⟩, ⟨123456, 0, 100, 1000, 2⟩]
        = ⟨some .long, some 200, some 2000, 1⟩ ∧
      recover_claim [⟨123456, 0, 200, 2000, 1⟩, ⟨123456, 0, 100, 1000, 2⟩]
        = ⟨some .long, some 100, some 1000, 2⟩ ∧
      (⟨some .long, some 200, some 2000, 1⟩ : St) ≠ ⟨some .long, some 100, some 1000, 2⟩ := by
  refine ⟨by decide, by decide, by decide⟩

/-- **C7, amended.**  `check_existing_position` returns Flat when no open
position matches the magic number, and otherwise adopts the direction, open
price, open time and size of the *first matching position in the gateway's
reported order* (which is the earliest-opened one only if the gateway lists
positions oldest-first); the adopted position always carries the bot's
magic number, so foreign positions are never adopted, and the function is a
pure function of the gateway snapshot, hence repeated calls against the
same snapshot reconstruct the same Position (idempotence). -/
theorem C7_recover_first_match (positions : List GwPos) :
    ((positions.filter fun p => p.magic = MAGIC_NUMBER) = [] →
        check_existing_position positions = flatSt) ∧
      (∀ p, (positions.filter fun p => p.magic = MAGIC_NUMBER).head? = some p →
        check_existing_position positions
            = ⟨some (posDir p), some p.price_open, some p.time, p.volume⟩ ∧
          p.magic = MAGIC_NUMBER) := by
  constructor
  · intro hemp
    unfold check_existing_position
    cases hpos : positions with
    | nil => simp
    | cons q qs =>
      rw [← hpos, hemp]
      simp [List.isEmpty_iff, hpos]
  · intro p hp
    have hmem : p ∈ positions.filter fun q => q.magic = MAGIC_NUMBER := by
      cases hh : (positions.filter fun q => q.magic = MAGIC_NUMBER) with
      | nil => rw [hh] at hp; simp at hp
      | cons q qs =>
        rw [hh] at hp
        simp only [List.head?_cons, Option.some_inj] at hp
        rw [hp]
        exact List.mem_cons_self p qs
    have hmag : p.magic = MAGIC_NUMBER := by
      have := List.mem_filter.mp hmem
      exact of_decide_eq_true this.2
    refine ⟨?_, hmag⟩
    unfold check_existing_position
    have hne : ¬ positions.isEmpty := by
      intro hemp
      rw [List.isEmpty_iff] at hemp
      rw [hemp] at hp
      simp at hp
    rw [if_neg hne, hp]

/-- **C7, witness.** -/
theorem C7_recover_first_match_witness :
    check_existing_position [] = flatSt ∧
      (check_existing_position [⟨123456, 0, 200, 2000, 1⟩, ⟨123456, 0, 100, 1000, 2⟩]
          = ⟨some (posDir ⟨123456, 0, 200, 2000, 1⟩), some 200, some 2000, 1⟩ ∧
        (⟨123456, 0, 200, 2000, 1⟩ : GwPos).magic = MAGIC_NUMBER) :=
  ⟨(C7_recover_first_match []).1 rfl,
   (C7_recover_first_match [⟨123456, 0, 200, 2000, 1⟩, ⟨123456, 0, 100, 1000, 2⟩]).2
     ⟨123456, 0, 200, 2000, 1⟩ (by decide)⟩

/-! ## Startup behaviour (source lines 21-23) -/

/-- Outcome of the module-level startup guard. -/
inductive InitOutcome where
  | started
  | exited (code : Nat)
deriving DecidableEq, Repr

/-- Python's `quit()` raises `SystemExit(None)`; the interpreter maps a
`None` exit argument to process status `0`. -/
def pyQuitOutcome : InitOutcome := .exited 0

/-- The startup guard
`if not mt5.initialize(): print("..."); quit()`. -/
def startup (initOk : Bool) : InitOutcome :=
  if initOk then .started else pyQuitOutcome

/-- **C10.**  When the gateway cannot be reached at startup
(`mt5.initialize()` returns `False`) the process does abort — but through
`quit()`, i.e. `SystemExit(None)`, so the exit status is `0`, not the
non-zero status the claim (and §6 of the spec) requires. -/
theorem C10_startup_exits_with_zero : startup false = InitOutcome.exited 0 := rfl

end MT5
